import Mathlib

/-!
# Shallow embedding of the `zoo_project` zoo-management system

Definitions translate `zoo/core.py`, `zoo/staff.py`, `zoo/events.py`,
`zoo/zoo.py` and `zoo/storage.py`.

Modelling conventions:
* `datetime` values are integers (seconds since an epoch); a `date` is the
  floor-division of such a value by 86400; `timedelta` is an integer number
  of seconds.
* Python object identity (the default `__eq__` used by `in` on animal and
  staff lists and by the subscription sets) is modelled by an `oid : Nat`
  field; deserialization allocates fresh `oid`s, as `Python` allocates
  fresh objects.
* Logging calls are modelled by returning the logged message
  (`Option String`), and the side effects of `notify_animals` by a list of
  `Effect` values.
* JSON dictionaries produced by `ZooStorage` are modelled as structures
  whose conditionally-written keys are `Option` fields.
-/

/-- A `datetime.date` of an integer timestamp: `datetime.date()` truncates
to the day containing the instant. -/
def dateOf (t : Int) : Int := t.fdiv 86400

/-- Zero-padding used by `strftime` for two-digit fields. -/
def pad2 (n : Nat) : String := if n < 10 then "0" ++ toString n else toString n

/-- Models `start_time.strftime("%H:%M")` on the integer time model. -/
def timeHHMM (t : Int) : String :=
  let secs := (t.emod 86400).toNat
  let h := pad2 (secs / 3600)
  let m := pad2 (secs % 3600 / 60)
  s!"{h}:{m}"

/-- The variant part of the `Animal` hierarchy in `core.py`:
`Bird`, `Mammal`, `Reptile` with their type-specific fields. -/
inductive AnimalKind where
  | bird (wing_span : Int) (can_fly : Bool)
  | mammal (species : String) (is_domestic : Bool) (fur_type : String)
  | reptile (is_venomous : Bool)
deriving DecidableEq

/-- An animal object: `oid` models Python object identity, the rest are the
constructor arguments of the `Animal` subclasses. -/
structure Animal where
  oid : Nat
  kind : AnimalKind
  name : String
  age : Int
deriving DecidableEq

/-- The `species` attribute: `Bird.__init__` and `Reptile.__init__` pass a
fixed string to `Animal.__init__`; `Mammal` passes its argument through. -/
def Animal.species (a : Animal) : String :=
  match a.kind with
  | .bird _ _ => "Bird"
  | .mammal s _ _ => s
  | .reptile _ => "Reptile"

/-- Models `animal.__class__.__name__`. -/
def Animal.className (a : Animal) : String :=
  match a.kind with
  | .bird _ _ => "Bird"
  | .mammal _ _ _ => "Mammal"
  | .reptile _ => "Reptile"

/-- The `Staff` hierarchy discriminant in `staff.py`. -/
inductive StaffRole where
  | keeper
  | vet
  | guide
deriving DecidableEq

/-- A staff object (`staff.py`): `oid` models Python object identity. -/
structure Staff where
  oid : Nat
  role : StaffRole
  name : String
  staff_id : Int
  hire_date : Int
deriving DecidableEq

/-- Models `staff.__class__.__name__`. -/
def StaffRole.className : StaffRole → String
  | .keeper => "ZooKeeper"
  | .vet => "Veterinarian"
  | .guide => "Guide"

/-- Models `events.EventType`. -/
inductive EventType where
  | FEEDING
  | MEDICAL_CHECK
  | TOUR
  | SHOW
  | CLEANING
  | ENRICHMENT
deriving DecidableEq

/-- Models `EventType[name]` — lookup of an enum member by its name; `none` models
the `KeyError` raised for an unknown member name. -/
def EventType.ofName (s : String) : Option EventType :=
  if s = "FEEDING" then some .FEEDING
  else if s = "MEDICAL_CHECK" then some .MEDICAL_CHECK
  else if s = "TOUR" then some .TOUR
  else if s = "SHOW" then some .SHOW
  else if s = "CLEANING" then some .CLEANING
  else if s = "ENRICHMENT" then some .ENRICHMENT
  else none

/-- The variant part of the `ZooEvent` hierarchy in `events.py`: a plain
`ZooEvent` carries an explicit `event_type`; the subclasses fix it and add
their own fields (`FeedingEvent.food_type`; `TourEvent.max_visitors` and
`TourEvent.visitor_count`). -/
inductive EventKind where
  | base (event_type : EventType)
  | feeding (food_type : String)
  | medical_check
  | tour (max_visitors : Int) (visitor_count : Int)
deriving DecidableEq

/-- A `ZooEvent` (`events.py`): common dataclass fields plus the variant. -/
structure ZooEvent where
  kind : EventKind
  name : String
  description : String
  start_time : Int
  duration : Int
  location : String
  staff : List Staff
  animals : List Animal
deriving DecidableEq

/-- The `event_type` attribute: set by the dataclass field for a plain
`ZooEvent` and fixed by each subclass constructor. -/
def ZooEvent.event_type (e : ZooEvent) : EventType :=
  match e.kind with
  | .base t => t
  | .feeding _ => .FEEDING
  | .medical_check => .MEDICAL_CHECK
  | .tour _ _ => .TOUR

/-- Models `event.__class__.__name__`. -/
def ZooEvent.className (e : ZooEvent) : String :=
  match e.kind with
  | .base _ => "ZooEvent"
  | .feeding _ => "FeedingEvent"
  | .medical_check => "MedicalCheckEvent"
  | .tour _ _ => "TourEvent"

/-- Models `ZooEvent.end_time`: `start_time + duration`. -/
def ZooEvent.end_time (e : ZooEvent) : Int := e.start_time + e.duration

/-- Models `ZooEvent.is_ongoing(when)`: `start_time <= when <= end_time`. -/
def ZooEvent.is_ongoing (e : ZooEvent) (t : Int) : Bool :=
  decide (e.start_time ≤ t) && decide (t ≤ e.end_time)

/-- Models `FeedingEvent.__init__`: defaults the description when the argument is
falsy (the empty string) and fixes `event_type = FEEDING`. -/
def mkFeedingEvent (name : String) (start_time : Int) (location : String)
    (food_type : String) (animals : List Animal) (staff : List Staff)
    (duration : Int) (description : String) : ZooEvent :=
  let d := if description = "" then "Feeding time with " ++ food_type ++ "!" else description
  { kind := .feeding food_type, name := name, description := d,
    start_time := start_time, duration := duration, location := location,
    staff := staff, animals := animals }

/-- Models `MedicalCheckEvent.__init__`. -/
def mkMedicalCheckEvent (name : String) (start_time : Int) (location : String)
    (animals : List Animal) (staff : List Staff)
    (duration : Int) (description : String) : ZooEvent :=
  let d := if description = "" then "Routine medical check-up" else description
  { kind := .medical_check, name := name, description := d,
    start_time := start_time, duration := duration, location := location,
    staff := staff, animals := animals }

/-- Models `TourEvent.__init__`: no animals, `visitor_count` starts at `0`. -/
def mkTourEvent (name : String) (start_time : Int) (location : String)
    (staff : List Staff) (duration : Int) (description : String)
    (max_visitors : Int) : ZooEvent :=
  let d := if description = "" then "Guided tour of the zoo" else description
  { kind := .tour max_visitors 0, name := name, description := d,
    start_time := start_time, duration := duration, location := location,
    staff := staff, animals := [] }

/-- Models `TourEvent.add_visitors(count)`: admit the group only if it fits; the
method exists only on tours, so other kinds are mapped to a rejection. -/
def ZooEvent.add_visitors (e : ZooEvent) (count : Int) : Bool × ZooEvent :=
  match e.kind with
  | .tour max_visitors visitor_count =>
      if visitor_count + count ≤ max_visitors then
        (true, { e with kind := .tour max_visitors (visitor_count + count) })
      else
        (false, e)
  | _ => (false, e)

/-- The `visitor_count` attribute of a tour (`0` otherwise). -/
def ZooEvent.visitor_count (e : ZooEvent) : Int :=
  match e.kind with
  | .tour _ vc => vc
  | _ => 0

/-- The `max_visitors` attribute of a tour (`0` otherwise). -/
def ZooEvent.max_visitors (e : ZooEvent) : Int :=
  match e.kind with
  | .tour mv _ => mv
  | _ => 0

/-! ## The registry (`zoo.py`) -/

/-- A side effect of `Zoo.notify_animals`: either an `animal.eat(food)` call
or the medical-inspection log line. -/
inductive Effect where
  | eat (animal : Animal) (food : String)
  | medical_log (animal : Animal)
deriving DecidableEq

/-- The `Zoo` registry state.  The three subscription lists model the
`_event_subscriptions` dict of sets installed by
`_setup_default_event_subscriptions` (keys `"feeding"`, `"medical_check"`,
`"enrichment"`); Python set membership uses object identity, modelled via
`oid`, and the model keeps insertion order. -/
structure Zoo where
  name : String
  animals : List Animal
  staff : List Staff
  events : List ZooEvent
  subs_feeding : List Animal
  subs_medical_check : List Animal
  subs_enrichment : List Animal
deriving DecidableEq

/-- Models `Zoo.__init__(name)`: empty registries and default subscriptions. -/
def Zoo.init (name : String) : Zoo :=
  { name := name, animals := [], staff := [], events := [],
    subs_feeding := [], subs_medical_check := [], subs_enrichment := [] }

/-- Models `animal in animals` with the default (identity-based) `__eq__`. -/
def objMem (a : Animal) (l : List Animal) : Bool :=
  l.any (fun x => x.oid == a.oid)

/-- Models `staff in staff_list` with the default (identity-based) `__eq__`. -/
def staffObjMem (s : Staff) (l : List Staff) : Bool :=
  l.any (fun x => x.oid == s.oid)

/-- Models `set.add` on an identity-keyed set, keeping insertion order. -/
def addToSet (l : List Animal) (a : Animal) : List Animal :=
  if objMem a l then l else l ++ [a]

/-- The warning logged by `add_animal` for a duplicate. -/
def dupAnimalWarning (a : Animal) : String :=
  let nm := a.name
  s!"Животное {nm} уже есть в зоопарке"

/-- Models `Zoo.add_animal`: no-op with a warning when the object is already
present; otherwise append it and subscribe it to `"feeding"` and
`"medical_check"`. -/
def Zoo.add_animal (zoo : Zoo) (animal : Animal) : Zoo × Option String :=
  if objMem animal zoo.animals then
    (zoo, some (dupAnimalWarning animal))
  else
    ({ zoo with
        animals := zoo.animals ++ [animal],
        subs_feeding := addToSet zoo.subs_feeding animal,
        subs_medical_check := addToSet zoo.subs_medical_check animal }, none)

/-- The warning logged by `add_staff` for a duplicate. -/
def dupStaffWarning (s : Staff) : String :=
  let nm := s.name
  s!"Сотрудник {nm} уже работает в зоопарке"

/-- Models `Zoo.add_staff`: no-op with a warning when present, append otherwise. -/
def Zoo.add_staff (zoo : Zoo) (staff : Staff) : Zoo × Option String :=
  if staffObjMem staff zoo.staff then
    (zoo, some (dupStaffWarning staff))
  else
    ({ zoo with staff := zoo.staff ++ [staff] }, none)

/-- Models `Zoo._events_overlap(event1, event2)`:
`event1.start_time < event2.end_time and event1.end_time > event2.start_time`. -/
def Zoo.events_overlap (event1 event2 : ZooEvent) : Bool :=
  decide (event1.start_time < event2.end_time) &&
    decide (event1.end_time > event2.start_time)

/-- The warning text logged by `schedule_event` on a conflict. -/
def overlapWarningMsg (event existing : ZooEvent) : String :=
  let en := event.name
  let xn := existing.name
  let xs := existing.start_time
  let xe := existing.end_time
  s!"Событие \x27{en}\x27 пересекается с \x27{xn}\x27 ({xs}-{xe})"

/-- The `for existing_event in self.events: ... break` scan of
`schedule_event`: warn about the first overlapping existing event only. -/
def overlapWarning (event : ZooEvent) : List ZooEvent → Option String
  | [] => none
  | existing :: rest =>
      if Zoo.events_overlap existing event then some (overlapWarningMsg event existing)
      else overlapWarning event rest

/-- Models `Zoo.schedule_event`: log at most one overlap warning, then append
unconditionally. -/
def Zoo.schedule_event (zoo : Zoo) (event : ZooEvent) : Zoo × Option String :=
  ({ zoo with events := zoo.events ++ [event] }, overlapWarning event zoo.events)

/-- Models `Zoo.get_events_on_date(target_date)`. -/
def Zoo.get_events_on_date (zoo : Zoo) (target_date : Int) : List ZooEvent :=
  zoo.events.filter (fun e => dateOf e.start_time == target_date)

/-- The sort key of `daily_report` and `run_day`: ascending `start_time`. -/
def startLE (a b : ZooEvent) : Bool := decide (a.start_time ≤ b.start_time)

/-- Models `"=" * 50`. -/
def eqLine : String := String.mk (List.replicate 50 '=')

/-- Models `"-" * 30`. -/
def dashLine : String := String.mk (List.replicate 30 '-')

/-- The `f"Всего животных: ..."` report line. -/
def animalCountLine (n : Nat) : String := s!"Всего животных: {n}"

/-- The `f"Всего сотрудников: ..."` report line. -/
def staffCountLine (n : Nat) : String := s!"Всего сотрудников: {n}"

/-- The `f"Запланировано событий: ..."` report line. -/
def eventsCountLine (n : Nat) : String := s!"Запланировано событий: {n}"

/-- The per-event block of `daily_report`. -/
def eventReportLines (event : ZooEvent) : List String :=
  let tm := timeHHMM event.start_time
  let en := event.name
  let loc := event.location
  let staffNames := String.intercalate ", " (event.staff.map (fun s => s.name))
  let animalNames := String.intercalate ", " (event.animals.map (fun a => a.name))
  [s!"{tm} - {en}", s!"   Место: {loc}", s!"   Участники: {staffNames}"]
    ++ (if event.animals.isEmpty then [] else [s!"   Животные: {animalNames}"])
    ++ [""]

/-- The `animal_types` tally of `daily_report`: a Python dict keyed by class
name, preserving insertion order. -/
def bumpCount (l : List (String × Nat)) (k : String) : List (String × Nat) :=
  match l with
  | [] => [(k, 1)]
  | (k2, n) :: rest => if k2 = k then (k2, n + 1) :: rest else (k2, n) :: bumpCount rest k

/-- Models `Zoo.daily_report` as the list of lines joined by the final
`"\n".join(report)`. -/
def Zoo.daily_report_lines (zoo : Zoo) (report_date : Int) : List String :=
  let daily_events := (zoo.events.filter (fun e => dateOf e.start_time == report_date)).mergeSort startLE
  let zn := zoo.name
  let na := animalCountLine zoo.animals.length
  let ns := staffCountLine zoo.staff.length
  let ne := eventsCountLine daily_events.length
  let header := [s!"Отчет зоопарка \x27{zn}\x27 за {report_date}", eqLine, na, ns, ne,
    "", "Запланированные события:", dashLine]
  let body :=
    if daily_events.isEmpty then ["Событий не запланировано"]
    else (daily_events.map eventReportLines).flatten
  let tallies := zoo.animals.foldl (fun acc a => bumpCount acc a.className) []
  let tallyLines := tallies.map (fun p =>
    let t := p.fst
    let c := p.snd
    s!"{t}: {c}")
  header ++ body ++ ["", "Сводка по животным:", dashLine] ++ tallyLines

/-- Models `Zoo.daily_report`. -/
def Zoo.daily_report (zoo : Zoo) (report_date : Int) : String :=
  String.intercalate "\n" (zoo.daily_report_lines report_date)

/-- The subscription-dict lookup `self._event_subscriptions[event_type]`. -/
def Zoo.subscription (zoo : Zoo) (event_type : String) : Option (List Animal) :=
  if event_type = "feeding" then some zoo.subs_feeding
  else if event_type = "medical_check" then some zoo.subs_medical_check
  else if event_type = "enrichment" then some zoo.subs_enrichment
  else none

/-- The loop body of `notify_animals`: feeding with a `food` kwarg makes the
animal eat; a medical check logs an inspection; anything else does nothing. -/
def notifyOne (event_type : String) (food : Option String) (animal : Animal) : List Effect :=
  if event_type == "feeding" && food.isSome then [Effect.eat animal (food.getD "")]
  else if event_type == "medical_check" then [Effect.medical_log animal]
  else []

/-- Models `Zoo.notify_animals(event_type, **kwargs)`: unknown event types only log
a warning (no effects); otherwise every subscribed animal is notified. -/
def Zoo.notify_animals (zoo : Zoo) (event_type : String) (food : Option String) : List Effect :=
  match zoo.subscription event_type with
  | none => []
  | some animals => (animals.map (notifyOne event_type food)).flatten

/-- The per-event dispatch of `run_day`: an `isinstance` chain on the
concrete event classes (a plain `ZooEvent` or a tour dispatches nothing). -/
def runEventNotifications (zoo : Zoo) (event : ZooEvent) : List Effect :=
  match event.kind with
  | .feeding food_type => zoo.notify_animals "feeding" (some food_type)
  | .medical_check => zoo.notify_animals "medical_check" none
  | _ => []

/-- Models `Zoo.run_day(target_date)`: the events of the day sorted by start time, and
the sequential trace of the notifications they dispatch. -/
def Zoo.run_day (zoo : Zoo) (target_date : Int) : List ZooEvent × List Effect :=
  let daily_events := (zoo.get_events_on_date target_date).mergeSort startLE
  (daily_events, (daily_events.map (runEventNotifications zoo)).flatten)

/-! ## Persistence (`storage.py`) -/

/-- Models `ZooStorage.SCHEMA_VERSION`. -/
def ZooStorage.SCHEMA_VERSION : String := "1.0"

/-- The dictionary written by `ZooStorage._serialize_animal`; the variant
fields are only present (`some`) for the matching class. -/
structure AnimalRecord where
  type : String
  name : String
  age : Int
  species : String
  wing_span : Option Int
  can_fly : Option Bool
  is_domestic : Option Bool
  fur_type : Option String
  is_venomous : Option Bool
deriving DecidableEq

/-- Models `ZooStorage._serialize_animal`. -/
def ZooStorage.serialize_animal (a : Animal) : AnimalRecord :=
  match a.kind with
  | .bird ws cf =>
      { type := "Bird", name := a.name, age := a.age, species := a.species,
        wing_span := some ws, can_fly := some cf,
        is_domestic := none, fur_type := none, is_venomous := none }
  | .mammal _ dom fur =>
      { type := "Mammal", name := a.name, age := a.age, species := a.species,
        wing_span := none, can_fly := none,
        is_domestic := some dom, fur_type := some fur, is_venomous := none }
  | .reptile ven =>
      { type := "Reptile", name := a.name, age := a.age, species := a.species,
        wing_span := none, can_fly := none,
        is_domestic := none, fur_type := none, is_venomous := some ven }

/-- Models `ZooStorage._deserialize_animal`: the `cls_map[data["type"]]` lookup
raises `KeyError` for an unknown tag, and each branch raises `KeyError` for
a missing variant field.  The `oid` argument models the fresh identity of
the newly constructed object. -/
def ZooStorage.deserialize_animal (oid : Nat) (data : AnimalRecord) : Except String Animal :=
  if data.type = "Bird" then
    match data.wing_span, data.can_fly with
    | none, _ => Except.error "KeyError: wing_span"
    | some _, none => Except.error "KeyError: can_fly"
    | some ws, some cf =>
        Except.ok { oid := oid, kind := .bird ws cf, name := data.name, age := data.age }
  else if data.type = "Mammal" then
    match data.is_domestic, data.fur_type with
    | none, _ => Except.error "KeyError: is_domestic"
    | some _, none => Except.error "KeyError: fur_type"
    | some dom, some fur =>
        Except.ok { oid := oid, kind := .mammal data.species dom fur,
                    name := data.name, age := data.age }
  else if data.type = "Reptile" then
    match data.is_venomous with
    | none => Except.error "KeyError: is_venomous"
    | some ven =>
        Except.ok { oid := oid, kind := .reptile ven, name := data.name, age := data.age }
  else
    Except.error ("KeyError: " ++ data.type)

/-- The dictionary written by `ZooStorage._serialize_staff`. -/
structure StaffRecord where
  type : String
  name : String
  staff_id : Int
  hire_date : Int
deriving DecidableEq

/-- Models `ZooStorage._serialize_staff`. -/
def ZooStorage.serialize_staff (s : Staff) : StaffRecord :=
  { type := s.role.className, name := s.name, staff_id := s.staff_id,
    hire_date := s.hire_date }

/-- Models `ZooStorage._deserialize_staff`: `cls_map` lookup by tag (`KeyError` on
an unknown one), construct the instance and overwrite its `hire_date`. -/
def ZooStorage.deserialize_staff (oid : Nat) (data : StaffRecord) : Except String Staff :=
  if data.type = "ZooKeeper" then
    Except.ok { oid := oid, role := .keeper, name := data.name,
                staff_id := data.staff_id, hire_date := data.hire_date }
  else if data.type = "Veterinarian" then
    Except.ok { oid := oid, role := .vet, name := data.name,
                staff_id := data.staff_id, hire_date := data.hire_date }
  else if data.type = "Guide" then
    Except.ok { oid := oid, role := .guide, name := data.name,
                staff_id := data.staff_id, hire_date := data.hire_date }
  else
    Except.error ("KeyError: " ++ data.type)

/-- The dictionary written by `ZooStorage._serialize_event`.  Note that the
serializer never writes an `event_type` key, while the fallback branch of the deserializer for unrecognized tags reads one. -/
structure EventRecord where
  type : String
  name : String
  description : String
  start_time : Int
  duration_seconds : Int
  location : String
  staff_ids : List Int
  animal_names : List String
  food_type : Option String
  max_visitors : Option Int
  visitor_count : Option Int
  event_type : Option String
deriving DecidableEq

/-- Models `ZooStorage._serialize_event`. -/
def ZooStorage.serialize_event (e : ZooEvent) : EventRecord :=
  let base : EventRecord :=
    { type := e.className, name := e.name, description := e.description,
      start_time := e.start_time, duration_seconds := e.duration,
      location := e.location,
      staff_ids := e.staff.map (fun s => s.staff_id),
      animal_names := e.animals.map (fun a => a.name),
      food_type := none, max_visitors := none, visitor_count := none,
      event_type := none }
  match e.kind with
  | .feeding ft => { base with food_type := some ft }
  | .tour mv vc => { base with max_visitors := some mv, visitor_count := some vc }
  | _ => base

/-- The `event.visitor_count = data.get("visitor_count", 0)` assignment. -/
def setVisitorCount (e : ZooEvent) (vc : Int) : ZooEvent :=
  match e.kind with
  | .tour mv _ => { e with kind := .tour mv vc }
  | _ => e

/-- Models `ZooStorage._deserialize_event`: staff and animals are resolved against
the target zoo by `staff_id` and `name`; the three concrete subclasses are
dispatched by tag, and any other tag falls through to constructing a plain
`ZooEvent` from the `event_type` key of the record (raising `KeyError` when the
key is absent or names no `EventType` member). -/
def ZooStorage.deserialize_event (data : EventRecord) (zoo : Zoo) : Except String ZooEvent :=
  let start_time := data.start_time
  let duration := data.duration_seconds
  let staff := zoo.staff.filter (fun s => data.staff_ids.contains s.staff_id)
  let animals := zoo.animals.filter (fun a => data.animal_names.contains a.name)
  if data.type = "FeedingEvent" then
    match data.food_type with
    | none => Except.error "KeyError: food_type"
    | some ft =>
        Except.ok (mkFeedingEvent data.name start_time data.location ft animals staff
          duration data.description)
  else if data.type = "MedicalCheckEvent" then
    Except.ok (mkMedicalCheckEvent data.name start_time data.location animals staff
      duration data.description)
  else if data.type = "TourEvent" then
    let ev := mkTourEvent data.name start_time data.location staff duration
      data.description (data.max_visitors.getD 20)
    Except.ok (setVisitorCount ev (data.visitor_count.getD 0))
  else
    match data.event_type with
    | none => Except.error "KeyError: event_type"
    | some etName =>
        match EventType.ofName etName with
        | none => Except.error ("KeyError: " ++ etName)
        | some et =>
            Except.ok { kind := .base et, name := data.name,
                        description := data.description, start_time := start_time,
                        duration := duration, location := data.location,
                        staff := staff, animals := animals }

/-- The whole-file document written by `ZooStorage.save`. -/
structure SavedData where
  schema_version : String
  animals : List AnimalRecord
  staff : List StaffRecord
  events : List EventRecord
  last_updated : Int
deriving DecidableEq

/-- Models `ZooStorage.save` (the data it writes; `now` stands for
`datetime.now()`). -/
def ZooStorage.save (zoo : Zoo) (now : Int) : SavedData :=
  { schema_version := ZooStorage.SCHEMA_VERSION,
    animals := zoo.animals.map ZooStorage.serialize_animal,
    staff := zoo.staff.map ZooStorage.serialize_staff,
    events := zoo.events.map ZooStorage.serialize_event,
    last_updated := now }

/-- The staff loop of `Zoo.load`: a deserialization error propagates and
aborts the load; `oid` is the fresh-identity supply. -/
def loadStaffRecords : List StaffRecord → Nat → Zoo → Except String Zoo
  | [], _, zoo => Except.ok zoo
  | r :: rs, oid, zoo =>
      match ZooStorage.deserialize_staff oid r with
      | Except.ok s => loadStaffRecords rs (oid + 1) (zoo.add_staff s).fst
      | Except.error e => Except.error e

/-- The animal loop of `Zoo.load`: errors propagate and abort the load. -/
def loadAnimalRecords : List AnimalRecord → Nat → Zoo → Except String Zoo
  | [], _, zoo => Except.ok zoo
  | r :: rs, oid, zoo =>
      match ZooStorage.deserialize_animal oid r with
      | Except.ok a => loadAnimalRecords rs (oid + 1) (zoo.add_animal a).fst
      | Except.error e => Except.error e

/-- The event loop of `Zoo.load`: the `try/except` logs a failed event and
skips it, the rest of the load continues. -/
def loadEventRecords : List EventRecord → Zoo → Zoo
  | [], zoo => zoo
  | r :: rs, zoo =>
      match ZooStorage.deserialize_event r zoo with
      | Except.ok e => loadEventRecords rs (zoo.schedule_event e).fst
      | Except.error _ => loadEventRecords rs zoo

/-- Models `Zoo.load` from already-parsed file data: a fresh zoo, staff then
animals (fatal on error), then events (per-event error recovery). -/
def Zoo.load (data : SavedData) : Except String Zoo :=
  match loadStaffRecords data.staff 0 (Zoo.init "Загруженный зоопарк") with
  | Except.error e => Except.error e
  | Except.ok z1 =>
      match loadAnimalRecords data.animals 0 z1 with
      | Except.error e => Except.error e
      | Except.ok z2 => Except.ok (loadEventRecords data.events z2)

/-! ## Concrete sample objects used by witnesses and counterexamples -/

/-- A concrete `Bird` instance. -/
def sampleBird : Animal := { oid := 0, kind := .bird 2 true, name := "Кеша", age := 2 }

/-- A concrete `ZooKeeper` instance. -/
def sampleKeeper : Staff :=
  { oid := 0, role := .keeper, name := "Иван Петров", staff_id := 1, hire_date := 19700 }

/-- A concrete `FeedingEvent` instance. -/
def sampleFeeding : ZooEvent :=
  mkFeedingEvent "Кормление" 3600 "Вольер 1" "корм" [sampleBird] [sampleKeeper] 1800 ""

/-- A concrete plain `ZooEvent` (constructed directly, as the dataclass
permits) with a zero `timedelta` duration. -/
def cexZeroLenEvent : ZooEvent :=
  { kind := .base .SHOW, name := "Мгновение", description := "", start_time := 5,
    duration := 0, location := "Арена", staff := [], animals := [] }

/-- A concrete plain `ZooEvent` covering `[0, 10)`. -/
def cexLongEvent : ZooEvent :=
  { kind := .base .SHOW, name := "Шоу", description := "", start_time := 0,
    duration := 10, location := "Арена", staff := [], animals := [] }

/-- A concrete plain `ZooEvent` with a negative `timedelta` duration. -/
def cexNegDurEvent : ZooEvent :=
  { kind := .base .CLEANING, name := "Уборка", description := "", start_time := 100,
    duration := -1, location := "Зал", staff := [], animals := [] }

/-- The invariant maintained by `add_animal`: every registered animal is
(identity-)present in both default subscription sets. -/
def subsInvariant (z : Zoo) : Prop :=
  ∀ b ∈ z.animals,
    (∃ x ∈ z.subs_feeding, x.oid = b.oid) ∧ (∃ x ∈ z.subs_medical_check, x.oid = b.oid)

/-- The staff type tags known to the `cls_map` of `_deserialize_staff`. -/
def knownStaffType (t : String) : Prop :=
  t = "ZooKeeper" ∨ t = "Veterinarian" ∨ t = "Guide"

/-- The animal type tags known to the `cls_map` of `_deserialize_animal`. -/
def knownAnimalType (t : String) : Prop :=
  t = "Bird" ∨ t = "Mammal" ∨ t = "Reptile"

/-- The event type tags `_deserialize_event` dispatches on by name. -/
def knownEventType (t : String) : Prop :=
  t = "FeedingEvent" ∨ t = "MedicalCheckEvent" ∨ t = "TourEvent"

/-- Whether a fallible computation succeeded. -/
def exceptIsOk {α : Type} : Except String α → Bool
  | Except.ok _ => true
  | Except.error _ => false

/-- A plain `ZooEvent` (constructed directly through the dataclass, with
one of the `EventType` members no subclass fixes) scheduled in a zoo:
`_serialize_event` tags it `"ZooEvent"` and writes no `event_type` key. -/
def cexBaseShowEvent : ZooEvent :=
  { kind := .base .SHOW, name := "Шоу", description := "Вечернее шоу",
    start_time := 0, duration := 3600, location := "Арена", staff := [], animals := [] }

/-- An event record whose type tag `"ShowEvent"` is unknown to the
deserializer but which carries a valid `event_type` key. -/
def cexShowRecord : EventRecord :=
  { type := "ShowEvent", name := "Шоу", description := "", start_time := 0,
    duration_seconds := 3600, location := "Арена", staff_ids := [],
    animal_names := [], food_type := none, max_visitors := none,
    visitor_count := none, event_type := some "SHOW" }

/-- An event record whose type tag is unknown and which lacks the
`event_type` key — exactly what `_serialize_event` produces for a plain
`ZooEvent`. -/
def cexNoEventTypeRecord : EventRecord :=
  { type := "ZooEvent", name := "Шоу", description := "", start_time := 0,
    duration_seconds := 3600, location := "Арена", staff_ids := [],
    animal_names := [], food_type := none, max_visitors := none,
    visitor_count := none, event_type := none }

/-! ## Theorems -/

theorem events_overlap_eq (e1 e2 : ZooEvent) :
    Zoo.events_overlap e1 e2
      = decide (e1.start_time < e2.start_time + e2.duration ∧
          e2.start_time < e1.start_time + e1.duration) := by
  simp [Zoo.events_overlap, ZooEvent.end_time, Bool.decide_and]

/-- C6 (amended): for events of positive duration, `_events_overlap` is true
exactly when the half-open intervals `[start_time, end_time)` intersect
(`end_time = start_time + duration`); the predicate is symmetric, and two
events that merely touch at a boundary do not overlap.  (For zero- or
negative-duration events the formula can report an overlap although the
degenerate interval is empty; see the counterexample.) -/
theorem c6_events_overlap_spec (e1 e2 : ZooEvent)
    (h1 : 0 < e1.duration) (h2 : 0 < e2.duration) :
    (Zoo.events_overlap e1 e2 = true ↔
      ∃ t : Int, (e1.start_time ≤ t ∧ t < e1.end_time) ∧
        (e2.start_time ≤ t ∧ t < e2.end_time))
    ∧ Zoo.events_overlap e1 e2 = Zoo.events_overlap e2 e1
    ∧ (e1.end_time = e2.start_time → Zoo.events_overlap e1 e2 = false) := by
  simp only [events_overlap_eq, ZooEvent.end_time] at *
  refine ⟨⟨fun h => ?_, fun h => ?_⟩, ?_, fun h => ?_⟩
  · rw [decide_eq_true_eq] at h
    rcases le_total e1.start_time e2.start_time with hle | hle
    · exact ⟨e2.start_time, ⟨hle, by omega⟩, ⟨le_refl _, by omega⟩⟩
    · exact ⟨e1.start_time, ⟨le_refl _, by omega⟩, ⟨hle, by omega⟩⟩
  · obtain ⟨t, ⟨h11, h12⟩, h21, h22⟩ := h
    rw [decide_eq_true_eq]
    omega
  · rw [decide_eq_decide]
    constructor <;> (intro hh; omega)
  · rw [decide_eq_false_iff_not]
    omega

/-- C6 witness: two overlapping one-hour feedings at 10:00 and 10:30. -/
theorem c6_events_overlap_spec_witness :
    (Zoo.events_overlap
        (mkFeedingEvent "A" 36000 "m" "f" [] [] 3600 "")
        (mkFeedingEvent "B" 37800 "m" "f" [] [] 3600 "") = true ↔
      ∃ t : Int,
        ((mkFeedingEvent "A" 36000 "m" "f" [] [] 3600 "").start_time ≤ t ∧
          t < (mkFeedingEvent "A" 36000 "m" "f" [] [] 3600 "").end_time) ∧
        ((mkFeedingEvent "B" 37800 "m" "f" [] [] 3600 "").start_time ≤ t ∧
          t < (mkFeedingEvent "B" 37800 "m" "f" [] [] 3600 "").end_time)) :=
  (c6_events_overlap_spec _ _ (by decide) (by decide)).1

/-- C6 counterexample: a zero-duration event (a legal `timedelta`) is
reported as overlapping an event that covers its start instant, although
its half-open interval `[5, 5)` is empty, so the intervals do not
intersect. -/
theorem c6_overlap_counterexample :
    Zoo.events_overlap cexZeroLenEvent cexLongEvent = true
    ∧ ¬ ∃ t : Int,
        (cexZeroLenEvent.start_time ≤ t ∧ t < cexZeroLenEvent.end_time) ∧
          (cexLongEvent.start_time ≤ t ∧ t < cexLongEvent.end_time) := by
  refine ⟨by decide, ?_⟩
  rintro ⟨t, ⟨ha, hb⟩, -⟩
  simp only [cexZeroLenEvent, ZooEvent.end_time] at ha hb
  omega

/-- C9 (amended): `is_ongoing(t)` is true exactly on the closed interval
`start_time ≤ t ≤ end_time`; whenever the duration is non-negative (so that
the interval is non-degenerate) it is in particular true at `t = end_time`,
the instant the half-open overlap convention excludes.  (With a negative
duration `end_time < start_time` and the point `end_time` is not ongoing;
see the counterexample.) -/
theorem c9_is_ongoing_spec (e : ZooEvent) (t : Int) :
    (e.is_ongoing t = true ↔ e.start_time ≤ t ∧ t ≤ e.end_time)
    ∧ (0 ≤ e.duration →
        e.is_ongoing e.end_time = true
        ∧ ¬(e.start_time ≤ e.end_time ∧ e.end_time < e.end_time)) := by
  unfold ZooEvent.is_ongoing ZooEvent.end_time
  refine ⟨by simp, fun h => ⟨?_, ?_⟩⟩
  · simp only [Bool.and_eq_true, decide_eq_true_eq]
    omega
  · rintro ⟨-, hlt⟩
    omega

/-- C9 witness: a one-hour feeding starting at `t = 3600` is ongoing at its
own `end_time`. -/
theorem c9_is_ongoing_spec_witness :
    sampleFeeding.is_ongoing sampleFeeding.end_time = true :=
  ((c9_is_ongoing_spec sampleFeeding 0).2 (by decide)).1

/-- C9 counterexample: a directly-constructed `ZooEvent` with a negative
`timedelta` duration is not ongoing at its own `end_time`, because the
chained comparison `start_time <= when <= end_time` fails. -/
theorem c9_counterexample :
    cexNegDurEvent.is_ongoing cexNegDurEvent.end_time = false := by
  decide

theorem add_visitors_fold_invariant (mv : Int) :
    ∀ (counts : List Int) (e : ZooEvent) (vc : Int),
      e.kind = .tour mv vc → vc ≤ mv →
      (counts.foldl (fun ev c => (ZooEvent.add_visitors ev c).snd) e).visitor_count ≤ mv
  | [], e, vc, hk, hle => by
      simpa [ZooEvent.visitor_count, hk] using hle
  | c :: cs, e, vc, hk, hle => by
      simp only [List.foldl_cons]
      by_cases h : vc + c ≤ mv
      · exact add_visitors_fold_invariant mv cs _ (vc + c)
          (by simp [ZooEvent.add_visitors, hk, h]) h
      · exact add_visitors_fold_invariant mv cs _ vc
          (by simp [ZooEvent.add_visitors, hk, h]) hle

/-- C8 (amended): `add_visitors(n)` succeeds and adds exactly `n` visitors
when `visitor_count + n ≤ max_visitors`, and otherwise fails leaving the
count unchanged; consequently, provided `max_visitors` is non-negative,
starting from `visitor_count = 0` the count never exceeds `max_visitors`
under any sequence of `add_visitors` calls with non-negative arguments.
(A tour constructed with a negative `max_visitors` already violates the
bound at `visitor_count = 0`; see the counterexample.) -/
theorem c8_add_visitors_spec (mv vc n : Int) (e : ZooEvent)
    (he : e.kind = .tour mv vc) (hn : 0 ≤ n) :
    (vc + n ≤ mv →
      e.add_visitors n = (true, { e with kind := .tour mv (vc + n) }))
    ∧ (mv < vc + n → e.add_visitors n = (false, e))
    ∧ (∀ counts : List Int, (∀ c ∈ counts, 0 ≤ c) → 0 ≤ mv →
        (counts.foldl (fun ev c => (ZooEvent.add_visitors ev c).snd)
          { e with kind := .tour mv 0 }).visitor_count ≤ mv) := by
  refine ⟨fun h => ?_, fun h => ?_, fun counts _ h0 => ?_⟩
  · simp [ZooEvent.add_visitors, he, h]
  · simp [ZooEvent.add_visitors, he, show ¬(vc + n ≤ mv) by omega]
  · exact add_visitors_fold_invariant mv counts _ 0 (by simp) h0

/-- C8 witness: a 20-place tour admits a group of 5. -/
theorem c8_add_visitors_spec_witness :
    (mkTourEvent "Тур" 0 "Зал" [] 3600 "" 20).add_visitors 5
      = (true, { mkTourEvent "Тур" 0 "Зал" [] 3600 "" 20 with kind := .tour 20 (0 + 5) }) :=
  (c8_add_visitors_spec 20 0 5 (mkTourEvent "Тур" 0 "Зал" [] 3600 "" 20)
    (by decide) (by decide)).1 (by decide)

/-- C8 counterexample: `TourEvent.__init__` accepts a negative
`max_visitors`, and then the freshly constructed tour (the empty call
sequence) already has `visitor_count = 0 > max_visitors`. -/
theorem c8_counterexample :
    (([] : List Int).foldl (fun ev c => (ZooEvent.add_visitors ev c).snd)
        (mkTourEvent "Тур" 0 "Зал" [] 3600 "" (-1))).visitor_count
      > (mkTourEvent "Тур" 0 "Зал" [] 3600 "" (-1)).max_visitors := by
  decide

theorem filter_oid_eq_nil_of_not_objMem (a : Animal) (l : List Animal)
    (h : objMem a l = false) :
    l.filter (fun x => x.oid == a.oid) = [] := by
  unfold objMem at h
  rw [List.any_eq_false] at h
  exact List.filter_eq_nil_iff.mpr h

/-- C5: `add_animal` on an already-present object (identity equality, as
the default Python `__eq__`) returns the zoo unchanged with the duplicate
warning; on a new object it appends it, so adding the same object twice
leaves exactly one entry for it. -/
theorem c5_add_animal_spec (zoo : Zoo) (a : Animal) :
    (objMem a zoo.animals = true →
      zoo.add_animal a = (zoo, some (dupAnimalWarning a)))
    ∧ (objMem a zoo.animals = false →
      (zoo.add_animal a).fst.animals = zoo.animals ++ [a]
      ∧ (zoo.add_animal a).snd = none
      ∧ ((zoo.add_animal a).fst.add_animal a).fst = (zoo.add_animal a).fst
      ∧ ((zoo.add_animal a).fst.animals.filter (fun x => x.oid == a.oid)).length = 1) := by
  refine ⟨fun h => ?_, fun h => ?_⟩
  · simp [Zoo.add_animal, h]
  · have hmem2 : objMem a (zoo.animals ++ [a]) = true := by
      unfold objMem
      simp [List.any_append]
    refine ⟨by simp [Zoo.add_animal, h], by simp [Zoo.add_animal, h], ?_, ?_⟩
    · simp [Zoo.add_animal, h, hmem2]
    · simp only [Zoo.add_animal, h, Bool.false_eq_true, if_false]
      rw [List.filter_append, filter_oid_eq_nil_of_not_objMem a zoo.animals h]
      simp

/-- C5 witness: adding a fresh bird to an empty zoo appends it, and adding
the same object again is a no-op leaving a single entry. -/
theorem c5_add_animal_spec_witness :
    ((Zoo.init "Z").add_animal sampleBird).fst.animals
        = (Zoo.init "Z").animals ++ [sampleBird]
    ∧ (((Zoo.init "Z").add_animal sampleBird).fst.add_animal sampleBird).fst
        = ((Zoo.init "Z").add_animal sampleBird).fst := by
  have h := (c5_add_animal_spec (Zoo.init "Z") sampleBird).2 (by decide)
  exact ⟨h.1, h.2.2.1⟩

theorem overlapWarning_eq_find : ∀ (l : List ZooEvent) (e : ZooEvent),
    overlapWarning e l
      = (l.find? (fun ex => Zoo.events_overlap ex e)).map (overlapWarningMsg e)
  | [], _ => rfl
  | x :: xs, e => by
      by_cases h : Zoo.events_overlap x e = true
      · simp [overlapWarning, List.find?, h]
      · have hf : Zoo.events_overlap x e = false := by simpa using h
        simp [overlapWarning, List.find?, hf, overlapWarning_eq_find xs e]

/-- C3: `schedule_event` always appends the new event (both events remain
scheduled); the logged warning, when present, is exactly the message naming
the first overlapping existing event in list order, and the absence of
overlaps means no warning — overlap never prevents scheduling. -/
theorem c3_schedule_event_spec (zoo : Zoo) (e_new e_old : ZooEvent)
    (h : e_old ∈ zoo.events) :
    (zoo.schedule_event e_new).fst.events = zoo.events ++ [e_new]
    ∧ e_old ∈ (zoo.schedule_event e_new).fst.events
    ∧ e_new ∈ (zoo.schedule_event e_new).fst.events
    ∧ (zoo.schedule_event e_new).snd
        = (zoo.events.find? (fun ex => Zoo.events_overlap ex e_new)).map
            (overlapWarningMsg e_new)
    ∧ ((∀ ex ∈ zoo.events, Zoo.events_overlap ex e_new = false) →
        (zoo.schedule_event e_new).snd = none) := by
  refine ⟨rfl, ?_, ?_, overlapWarning_eq_find zoo.events e_new, fun hno => ?_⟩
  · simp [Zoo.schedule_event, h]
  · simp [Zoo.schedule_event]
  · show overlapWarning e_new zoo.events = none
    rw [overlapWarning_eq_find, List.find?_eq_none.mpr, Option.map_none']
    intro ex hex
    simp [hno ex hex]

/-- C3 witness: scheduling a second feeding overlapping the first keeps
both events and logs the conflict naming the first one. -/
theorem c3_schedule_event_spec_witness :
    sampleFeeding ∈ ((((Zoo.init "Z").schedule_event sampleFeeding).fst).schedule_event
        (mkFeedingEvent "Обед" 4000 "Вольер 2" "сено" [] [] 1800 "")).fst.events
    ∧ ((((Zoo.init "Z").schedule_event sampleFeeding).fst).schedule_event
        (mkFeedingEvent "Обед" 4000 "Вольер 2" "сено" [] [] 1800 "")).snd
      = some (overlapWarningMsg (mkFeedingEvent "Обед" 4000 "Вольер 2" "сено" [] [] 1800 "")
          sampleFeeding) := by
  have h := c3_schedule_event_spec (((Zoo.init "Z").schedule_event sampleFeeding).fst)
    (mkFeedingEvent "Обед" 4000 "Вольер 2" "сено" [] [] 1800 "") sampleFeeding
    (by simp [Zoo.schedule_event, Zoo.init])
  refine ⟨h.2.1, ?_⟩
  rw [h.2.2.2.1]
  decide

theorem mem_addToSet_self (l : List Animal) (a : Animal) :
    ∃ x ∈ addToSet l a, x.oid = a.oid := by
  unfold addToSet
  by_cases h : objMem a l
  · rw [if_pos h]
    unfold objMem at h
    obtain ⟨x, hx, he⟩ := List.any_eq_true.mp h
    exact ⟨x, hx, by simpa using he⟩
  · rw [if_neg h]
    exact ⟨a, by simp, rfl⟩

theorem mem_addToSet_mono (l : List Animal) (a x : Animal) (h : x ∈ l) :
    x ∈ addToSet l a := by
  unfold addToSet
  split
  · exact h
  · simp [h]

theorem add_animal_subsInvariant (z : Zoo) (a : Animal) (h : subsInvariant z) :
    subsInvariant (z.add_animal a).fst := by
  unfold subsInvariant at *
  by_cases hm : objMem a z.animals = true
  · simpa [Zoo.add_animal, if_pos hm] using h
  · intro b hb
    simp only [Zoo.add_animal, if_neg hm] at hb ⊢
    simp only [List.mem_append, List.mem_singleton] at hb
    rcases hb with hb | rfl
    · obtain ⟨⟨x, hx, hxe⟩, ⟨y, hy, hye⟩⟩ := h b hb
      exact ⟨⟨x, mem_addToSet_mono _ _ _ hx, hxe⟩, ⟨y, mem_addToSet_mono _ _ _ hy, hye⟩⟩
    · exact ⟨mem_addToSet_self _ _, mem_addToSet_self _ _⟩

theorem foldl_add_animal_subsInvariant :
    ∀ (animals : List Animal) (z : Zoo), subsInvariant z →
      subsInvariant (animals.foldl (fun zz x => (zz.add_animal x).fst) z)
  | [], _, h => h
  | a :: as, z, h => by
      simp only [List.foldl_cons]
      exact foldl_add_animal_subsInvariant as _ (add_animal_subsInvariant z a h)

/-- C10: in any zoo built from an empty one by `add_animal` calls, every
registered animal is identity-present in both the `"feeding"` and the
`"medical_check"` subscription sets, so `notify_animals("feeding", food=f)`
feeds every animal in the zoo (the animal list of the triggering event itself is
never consulted). -/
theorem c10_subscriptions_spec (name : String) (animals : List Animal) (z : Zoo)
    (hz : z = animals.foldl (fun zz x => (zz.add_animal x).fst) (Zoo.init name))
    (a : Animal) (food : String) (ha : a ∈ z.animals) :
    (∃ x ∈ z.subs_feeding, x.oid = a.oid)
    ∧ (∃ x ∈ z.subs_medical_check, x.oid = a.oid)
    ∧ (∃ x, Effect.eat x food ∈ z.notify_animals "feeding" (some food) ∧ x.oid = a.oid) := by
  subst hz
  have hinv := foldl_add_animal_subsInvariant animals (Zoo.init name)
    (by intro b hb; simp [Zoo.init] at hb)
  obtain ⟨⟨x, hx, hxe⟩, hmed⟩ := hinv a ha
  refine ⟨⟨x, hx, hxe⟩, hmed, ⟨x, ?_, hxe⟩⟩
  unfold Zoo.notify_animals Zoo.subscription
  rw [if_pos rfl]
  rw [List.mem_flatten]
  refine ⟨[Effect.eat x food], List.mem_map.mpr ⟨x, hx, ?_⟩, by simp⟩
  simp [notifyOne]

/-- C10 witness: after adding one bird to an empty zoo, a feeding
notification feeds it. -/
theorem c10_subscriptions_spec_witness :
    ∃ x, Effect.eat x "корм"
        ∈ ([sampleBird].foldl (fun zz y => (zz.add_animal y).fst) (Zoo.init "Z")).notify_animals
            "feeding" (some "корм")
      ∧ x.oid = sampleBird.oid :=
  (c10_subscriptions_spec "Z" [sampleBird] _ rfl sampleBird "корм"
    (by simp [Zoo.init, Zoo.add_animal, objMem])).2.2

/-- C4: `run_day` processes exactly the events whose start date equals the
target date, in ascending start-time order, and the dispatched
notification trace is the in-order concatenation of the type-specific notifications of each processed event. -/
theorem c4_run_day_spec (zoo : Zoo) (d : Int) :
    ((zoo.run_day d).fst).Perm (zoo.events.filter (fun e => dateOf e.start_time == d))
    ∧ (∀ e, e ∈ (zoo.run_day d).fst ↔ e ∈ zoo.events ∧ dateOf e.start_time = d)
    ∧ ((zoo.run_day d).fst).Pairwise (fun e1 e2 => e1.start_time ≤ e2.start_time)
    ∧ (zoo.run_day d).snd = (((zoo.run_day d).fst).map (runEventNotifications zoo)).flatten := by
  refine ⟨?_, fun e => ?_, ?_, rfl⟩
  · exact List.mergeSort_perm _ _
  · show e ∈ (zoo.get_events_on_date d).mergeSort startLE ↔ _
    rw [List.mem_mergeSort]
    unfold Zoo.get_events_on_date
    simp [List.mem_filter]
  · have hs := @List.sorted_mergeSort ZooEvent startLE
      (fun a b c hab hbc => by
        simp only [startLE, decide_eq_true_eq] at *
        omega)
      (fun a b => by
        simp only [startLE]
        rcases Int.le_total a.start_time b.start_time with h | h <;> simp [h])
      (zoo.get_events_on_date d)
    exact hs.imp (fun hab => by simpa [startLE] using hab)

/-- C4 witness: a concrete instantiation of the `run_day` specification. -/
theorem c4_run_day_spec_witness :
    ∀ e, e ∈ (((Zoo.init "Z").schedule_event sampleFeeding).fst.run_day 0).fst
      ↔ e ∈ ((Zoo.init "Z").schedule_event sampleFeeding).fst.events
          ∧ dateOf e.start_time = 0 :=
  fun e => (c4_run_day_spec (((Zoo.init "Z").schedule_event sampleFeeding).fst) 0).2.1 e

/-- C7: for a report date on which no scheduled event starts,
`daily_report` contains the "no events" line, the exact animal and staff
counts, and reports zero scheduled events; the returned string joins these
lines with newlines. -/
theorem c7_daily_report_spec (zoo : Zoo) (d : Int)
    (h : ∀ e ∈ zoo.events, dateOf e.start_time ≠ d) :
    "Событий не запланировано" ∈ zoo.daily_report_lines d
    ∧ animalCountLine zoo.animals.length ∈ zoo.daily_report_lines d
    ∧ staffCountLine zoo.staff.length ∈ zoo.daily_report_lines d
    ∧ eventsCountLine 0 ∈ zoo.daily_report_lines d
    ∧ zoo.daily_report d = String.intercalate "\n" (zoo.daily_report_lines d) := by
  have hf : zoo.events.filter (fun e => dateOf e.start_time == d) = [] := by
    rw [List.filter_eq_nil_iff]
    intro e he
    simpa using h e he
  refine ⟨?_, ?_, ?_, ?_, rfl⟩ <;>
    simp [Zoo.daily_report_lines, hf]

/-- C7 witness: the report of the empty zoo for an event-free day. -/
theorem c7_daily_report_spec_witness :
    "Событий не запланировано" ∈ (Zoo.init "Z").daily_report_lines 0
    ∧ eventsCountLine 0 ∈ (Zoo.init "Z").daily_report_lines 0 := by
  have h := c7_daily_report_spec (Zoo.init "Z") 0 (by intro e he; simp [Zoo.init] at he)
  exact ⟨h.1, h.2.2.2.1⟩

/-! ### Round-trip lemmas for the persistence layer -/

theorem deserialize_serialize_staff (s : Staff) (oid : Nat) :
    ZooStorage.deserialize_staff oid (ZooStorage.serialize_staff s)
      = Except.ok { s with oid := oid } := by
  cases s with
  | mk o role nm sid hd =>
      cases role <;>
        simp [ZooStorage.serialize_staff, ZooStorage.deserialize_staff, StaffRole.className]

theorem deserialize_serialize_animal (a : Animal) (oid : Nat) :
    ZooStorage.deserialize_animal oid (ZooStorage.serialize_animal a)
      = Except.ok { a with oid := oid } := by
  cases a with
  | mk o kd nm ag =>
      cases kd <;>
        simp [ZooStorage.serialize_animal, ZooStorage.deserialize_animal, Animal.species]

theorem deserialize_serialize_event_ok (e : ZooEvent) (z : Zoo)
    (h : e.className ≠ "ZooEvent") :
    ∃ e2, ZooStorage.deserialize_event (ZooStorage.serialize_event e) z = Except.ok e2 := by
  rcases he : e.kind with et | ft | - | ⟨mv, vc⟩
  · exact absurd (by simp [ZooEvent.className, he]) h
  · simp [ZooStorage.serialize_event, ZooStorage.deserialize_event,
      ZooEvent.className, he]
  · simp [ZooStorage.serialize_event, ZooStorage.deserialize_event,
      ZooEvent.className, he]
  · simp [ZooStorage.serialize_event, ZooStorage.deserialize_event,
      ZooEvent.className, he]

theorem add_staff_fresh (z : Zoo) (s : Staff) (h : staffObjMem s z.staff = false) :
    (z.add_staff s).fst = { z with staff := z.staff ++ [s] } := by
  simp [Zoo.add_staff, h]

theorem add_animal_fresh (z : Zoo) (a : Animal) (h : objMem a z.animals = false) :
    (z.add_animal a).fst
      = { z with
          animals := z.animals ++ [a],
          subs_feeding := addToSet z.subs_feeding a,
          subs_medical_check := addToSet z.subs_medical_check a } := by
  simp [Zoo.add_animal, h]

theorem loadStaffRecords_roundtrip :
    ∀ (ss : List Staff) (oid : Nat) (z : Zoo),
      (∀ t ∈ z.staff, t.oid < oid) →
      ∃ z2, loadStaffRecords (ss.map ZooStorage.serialize_staff) oid z = Except.ok z2
        ∧ z2.staff.length = z.staff.length + ss.length
        ∧ z2.animals = z.animals
        ∧ z2.events = z.events
  | [], oid, z, _ => ⟨z, rfl, by simp, rfl, rfl⟩
  | s :: ss, oid, z, hf => by
      have hmem : staffObjMem { s with oid := oid } z.staff = false := by
        unfold staffObjMem
        rw [List.any_eq_false]
        intro x hx
        simp only [beq_iff_eq]
        exact Nat.ne_of_lt (hf x hx)
      have hstep : (z.add_staff { s with oid := oid }).fst
          = { z with staff := z.staff ++ [{ s with oid := oid }] } :=
        add_staff_fresh z _ hmem
      obtain ⟨z2, hz2, hlen, hani, hev⟩ := loadStaffRecords_roundtrip ss (oid + 1)
        ((z.add_staff { s with oid := oid }).fst)
        (by
          rw [hstep]
          intro t ht
          simp only [List.mem_append, List.mem_singleton] at ht
          rcases ht with ht | rfl
          · exact Nat.lt_succ_of_lt (hf t ht)
          · exact Nat.lt_succ_self oid)
      refine ⟨z2, ?_, ?_, ?_, ?_⟩
      · simp only [List.map_cons, loadStaffRecords, deserialize_serialize_staff]
        exact hz2
      · rw [hlen, hstep]
        simp only [List.length_append, List.length_cons, List.length_singleton, List.length_nil]
        omega
      · rw [hani, hstep]
      · rw [hev, hstep]

theorem loadAnimalRecords_roundtrip :
    ∀ (animals : List Animal) (oid : Nat) (z : Zoo),
      (∀ b ∈ z.animals, b.oid < oid) →
      ∃ z2, loadAnimalRecords (animals.map ZooStorage.serialize_animal) oid z = Except.ok z2
        ∧ z2.animals.map Animal.name = z.animals.map Animal.name ++ animals.map Animal.name
        ∧ z2.staff = z.staff
        ∧ z2.events = z.events
  | [], oid, z, _ => ⟨z, rfl, by simp, rfl, rfl⟩
  | a :: as, oid, z, hf => by
      have hmem : objMem { a with oid := oid } z.animals = false := by
        unfold objMem
        rw [List.any_eq_false]
        intro x hx
        simp only [beq_iff_eq]
        exact Nat.ne_of_lt (hf x hx)
      have hstep := add_animal_fresh z { a with oid := oid } hmem
      obtain ⟨z2, hz2, hnames, hstf, hev⟩ := loadAnimalRecords_roundtrip as (oid + 1)
        ((z.add_animal { a with oid := oid }).fst)
        (by
          rw [hstep]
          intro b hb
          simp only [List.mem_append, List.mem_singleton] at hb
          rcases hb with hb | rfl
          · exact Nat.lt_succ_of_lt (hf b hb)
          · exact Nat.lt_succ_self oid)
      refine ⟨z2, ?_, ?_, ?_, ?_⟩
      · simp only [List.map_cons, loadAnimalRecords, deserialize_serialize_animal]
        exact hz2
      · rw [hnames, hstep]
        simp
      · rw [hstf, hstep]
      · rw [hev, hstep]

theorem loadEventRecords_roundtrip :
    ∀ (es : List ZooEvent) (z : Zoo),
      (∀ e ∈ es, e.className ≠ "ZooEvent") →
      (loadEventRecords (es.map ZooStorage.serialize_event) z).events.length
          = z.events.length + es.length
      ∧ (loadEventRecords (es.map ZooStorage.serialize_event) z).animals = z.animals
      ∧ (loadEventRecords (es.map ZooStorage.serialize_event) z).staff = z.staff
  | [], z, _ => ⟨by simp [loadEventRecords], rfl, rfl⟩
  | e :: es, z, h => by
      obtain ⟨e2, he2⟩ := deserialize_serialize_event_ok e z (h e (by simp))
      obtain ⟨hlen, hani, hstf⟩ := loadEventRecords_roundtrip es ((z.schedule_event e2).fst)
        (fun x hx => h x (by simp [hx]))
      simp only [List.map_cons, loadEventRecords, he2]
      refine ⟨?_, hani, hstf⟩
      rw [hlen]
      simp [Zoo.schedule_event]
      omega

/-- C1 (amended): for a zoo whose scheduled events are all instances of the
three concrete event subclasses (`FeedingEvent`, `MedicalCheckEvent`,
`TourEvent`), a `ZooStorage.save` followed by `Zoo.load` succeeds and
preserves the animal count, every animal name position by position, the
staff count, and the event count.  (A plain `ZooEvent` breaks the event
count: the serializer writes no `event_type` key, so its record is dropped
on load — see the counterexample.) -/
theorem c1_roundtrip_amended (zoo : Zoo) (now : Int)
    (h : ∀ e ∈ zoo.events, e.className ≠ "ZooEvent") :
    ∃ zoo2, Zoo.load (ZooStorage.save zoo now) = Except.ok zoo2
      ∧ zoo2.animals.map Animal.name = zoo.animals.map Animal.name
      ∧ zoo2.animals.length = zoo.animals.length
      ∧ zoo2.staff.length = zoo.staff.length
      ∧ zoo2.events.length = zoo.events.length := by
  obtain ⟨z1, hz1, hl1, ha1, he1⟩ := loadStaffRecords_roundtrip zoo.staff 0
    (Zoo.init "Загруженный зоопарк") (by simp [Zoo.init])
  obtain ⟨z2, hz2, hn2, hs2, he2⟩ := loadAnimalRecords_roundtrip zoo.animals 0 z1
    (by rw [ha1]; simp [Zoo.init])
  obtain ⟨hl3, ha3, hs3⟩ := loadEventRecords_roundtrip zoo.events z2 h
  have hnames : (loadEventRecords (zoo.events.map ZooStorage.serialize_event) z2).animals.map
      Animal.name = zoo.animals.map Animal.name := by
    rw [ha3, hn2, ha1]
    simp [Zoo.init]
  refine ⟨loadEventRecords (zoo.events.map ZooStorage.serialize_event) z2, ?_, hnames, ?_, ?_, ?_⟩
  · unfold Zoo.load
    simp only [ZooStorage.save, hz1, hz2]
  · have := congrArg List.length hnames
    simpa using this
  · rw [hs3, hs2, hl1]
    simp [Zoo.init]
  · rw [hl3, he2, he1]
    simp [Zoo.init]

/-- C1 witness: a populated zoo with one bird, one keeper and one feeding
round-trips with all counts and names preserved. -/
theorem c1_roundtrip_amended_witness :
    ∃ zoo2,
      Zoo.load (ZooStorage.save ((((((Zoo.init "Z").add_animal sampleBird).fst).add_staff
            sampleKeeper).fst).schedule_event sampleFeeding).fst 0) = Except.ok zoo2
      ∧ zoo2.animals.map Animal.name
          = ((((((Zoo.init "Z").add_animal sampleBird).fst).add_staff
              sampleKeeper).fst).schedule_event sampleFeeding).fst.animals.map Animal.name
      ∧ zoo2.animals.length
          = ((((((Zoo.init "Z").add_animal sampleBird).fst).add_staff
              sampleKeeper).fst).schedule_event sampleFeeding).fst.animals.length
      ∧ zoo2.staff.length
          = ((((((Zoo.init "Z").add_animal sampleBird).fst).add_staff
              sampleKeeper).fst).schedule_event sampleFeeding).fst.staff.length
      ∧ zoo2.events.length
          = ((((((Zoo.init "Z").add_animal sampleBird).fst).add_staff
              sampleKeeper).fst).schedule_event sampleFeeding).fst.events.length :=
  c1_roundtrip_amended _ 0 (by decide)

/-- C1 counterexample: a zoo holding one directly-constructed plain
`ZooEvent` saves fine, but the load returns a zoo with zero events — the
record tag `"ZooEvent"` falls to the generic branch, which raises
`KeyError: "event_type"` (a key the serializer never writes), and the
event is skipped.  The round-trip does not preserve the event count. -/
theorem c1_roundtrip_counterexample :
    ((Zoo.init "Z").schedule_event cexBaseShowEvent).fst.events.length = 1
    ∧ (Zoo.load (ZooStorage.save ((Zoo.init "Z").schedule_event cexBaseShowEvent).fst
          0)).toOption.map (fun z => z.events.length) = some 0 := by
  constructor
  · rfl
  · rfl

/-! ### Unknown-tag behavior of the load path -/

theorem deserialize_staff_unknown (oid : Nat) (r : StaffRecord)
    (h : ¬knownStaffType r.type) :
    exceptIsOk (ZooStorage.deserialize_staff oid r) = false := by
  unfold knownStaffType at h
  push_neg at h
  obtain ⟨h1, h2, h3⟩ := h
  simp [ZooStorage.deserialize_staff, h1, h2, h3, exceptIsOk]

theorem deserialize_animal_unknown (oid : Nat) (r : AnimalRecord)
    (h : ¬knownAnimalType r.type) :
    exceptIsOk (ZooStorage.deserialize_animal oid r) = false := by
  unfold knownAnimalType at h
  push_neg at h
  obtain ⟨h1, h2, h3⟩ := h
  simp [ZooStorage.deserialize_animal, h1, h2, h3, exceptIsOk]

theorem deserialize_staff_known_ok (oid : Nat) (r : StaffRecord)
    (h : knownStaffType r.type) :
    ∃ s, ZooStorage.deserialize_staff oid r = Except.ok s := by
  rcases h with h | h | h <;> simp [ZooStorage.deserialize_staff, h]

theorem loadStaffRecords_error_of_unknown :
    ∀ (rs : List StaffRecord) (oid : Nat) (z : Zoo),
      (∃ r ∈ rs, ¬knownStaffType r.type) →
      exceptIsOk (loadStaffRecords rs oid z) = false
  | [], _, _, h => by simp at h
  | r :: rs, oid, z, h => by
      cases hd : ZooStorage.deserialize_staff oid r with
      | error e => simp [loadStaffRecords, hd, exceptIsOk]
      | ok s =>
          obtain ⟨r2, hr2, hk2⟩ := h
          rcases List.mem_cons.mp hr2 with rfl | hr2
          · have := deserialize_staff_unknown oid r2 hk2
            rw [hd] at this
            simp [exceptIsOk] at this
          · simp only [loadStaffRecords, hd]
            exact loadStaffRecords_error_of_unknown rs (oid + 1) _ ⟨r2, hr2, hk2⟩

theorem loadAnimalRecords_error_of_unknown :
    ∀ (rs : List AnimalRecord) (oid : Nat) (z : Zoo),
      (∃ r ∈ rs, ¬knownAnimalType r.type) →
      exceptIsOk (loadAnimalRecords rs oid z) = false
  | [], _, _, h => by simp at h
  | r :: rs, oid, z, h => by
      cases hd : ZooStorage.deserialize_animal oid r with
      | error e => simp [loadAnimalRecords, hd, exceptIsOk]
      | ok a =>
          obtain ⟨r2, hr2, hk2⟩ := h
          rcases List.mem_cons.mp hr2 with rfl | hr2
          · have := deserialize_animal_unknown oid r2 hk2
            rw [hd] at this
            simp [exceptIsOk] at this
          · simp only [loadAnimalRecords, hd]
            exact loadAnimalRecords_error_of_unknown rs (oid + 1) _ ⟨r2, hr2, hk2⟩

theorem loadStaffRecords_ok_of_known :
    ∀ (rs : List StaffRecord) (oid : Nat) (z : Zoo),
      (∀ r ∈ rs, knownStaffType r.type) →
      ∃ z2, loadStaffRecords rs oid z = Except.ok z2
  | [], _, z, _ => ⟨z, rfl⟩
  | r :: rs, oid, z, h => by
      obtain ⟨s, hs⟩ := deserialize_staff_known_ok oid r (h r (by simp))
      obtain ⟨z2, hz2⟩ := loadStaffRecords_ok_of_known rs (oid + 1)
        ((z.add_staff s).fst) (fun r2 hr2 => h r2 (by simp [hr2]))
      exact ⟨z2, by simp only [loadStaffRecords, hs]; exact hz2⟩

theorem loadAnimalRecords_ok_of_isOk :
    ∀ (rs : List AnimalRecord) (oid : Nat) (z : Zoo),
      (∀ r ∈ rs, ∀ o : Nat, exceptIsOk (ZooStorage.deserialize_animal o r) = true) →
      ∃ z2, loadAnimalRecords rs oid z = Except.ok z2
  | [], _, z, _ => ⟨z, rfl⟩
  | r :: rs, oid, z, h => by
      have hok := h r (by simp) oid
      cases hd : ZooStorage.deserialize_animal oid r with
      | error e => rw [hd] at hok; simp [exceptIsOk] at hok
      | ok a =>
          obtain ⟨z2, hz2⟩ := loadAnimalRecords_ok_of_isOk rs (oid + 1)
            ((z.add_animal a).fst) (fun r2 hr2 => h r2 (by simp [hr2]))
          exact ⟨z2, by simp only [loadAnimalRecords, hd]; exact hz2⟩

/-- C2 (amended): an unknown type tag on an animal or staff record raises
an error that aborts the whole load (no zoo is returned).  An unknown tag
on an **event** record is instead handed to the generic-`ZooEvent` branch:
only when the record also lacks a usable `event_type` key (absent, or
naming no `EventType` member) does deserialization raise; such a failure
is caught, logged, and only that event is skipped — whenever the staff and
animal records all deserialize, the load completes and returns a zoo
whatever the event records contain. -/
theorem c2_unknown_tag_amended (data : SavedData) :
    (((∃ r ∈ data.staff, ¬knownStaffType r.type)
        ∨ (∃ r ∈ data.animals, ¬knownAnimalType r.type)) →
      exceptIsOk (Zoo.load data) = false)
    ∧ (∀ (r : EventRecord) (z : Zoo), ¬knownEventType r.type →
        (r.event_type = none ∨ ∃ s, r.event_type = some s ∧ EventType.ofName s = none) →
        exceptIsOk (ZooStorage.deserialize_event r z) = false)
    ∧ (∀ (r : EventRecord) (rs : List EventRecord) (z : Zoo),
        exceptIsOk (ZooStorage.deserialize_event r z) = false →
        loadEventRecords (r :: rs) z = loadEventRecords rs z)
    ∧ ((∀ r ∈ data.staff, knownStaffType r.type) →
        (∀ r ∈ data.animals, ∀ o : Nat, exceptIsOk (ZooStorage.deserialize_animal o r) = true) →
        ∃ z2, Zoo.load data = Except.ok z2) := by
  refine ⟨fun hbad => ?_, fun r z hk hbad => ?_, fun r rs z hne => ?_, fun hstaff hanimal => ?_⟩
  · unfold Zoo.load
    cases hs : loadStaffRecords data.staff 0 (Zoo.init "Загруженный зоопарк") with
    | error e => simp [exceptIsOk]
    | ok z1 =>
        rcases hbad with hbadstaff | ⟨r, hr, hk⟩
        · have := loadStaffRecords_error_of_unknown data.staff 0
            (Zoo.init "Загруженный зоопарк") hbadstaff
          rw [hs] at this
          simp [exceptIsOk] at this
        · cases ha : loadAnimalRecords data.animals 0 z1 with
          | error e => simp [ha, exceptIsOk]
          | ok z2 =>
              have := loadAnimalRecords_error_of_unknown data.animals 0 z1 ⟨r, hr, hk⟩
              rw [ha] at this
              simp [exceptIsOk] at this
  · unfold knownEventType at hk
    push_neg at hk
    obtain ⟨h1, h2, h3⟩ := hk
    rcases hbad with hnone | ⟨s, hsome, hofn⟩
    · simp [ZooStorage.deserialize_event, h1, h2, h3, hnone, exceptIsOk]
    · simp [ZooStorage.deserialize_event, h1, h2, h3, hsome, hofn, exceptIsOk]
  · cases hd : ZooStorage.deserialize_event r z with
    | error e => simp [loadEventRecords, hd]
    | ok ev => rw [hd] at hne; simp [exceptIsOk] at hne
  · obtain ⟨z1, hz1⟩ := loadStaffRecords_ok_of_known data.staff 0
      (Zoo.init "Загруженный зоопарк") hstaff
    obtain ⟨z2, hz2⟩ := loadAnimalRecords_ok_of_isOk data.animals 0 z1 hanimal
    exact ⟨loadEventRecords data.events z2, by unfold Zoo.load; simp only [hz1, hz2]⟩

/-- C2 witness: a file whose only staff record is a serialized keeper and
whose only event record is the untagged one a plain `ZooEvent` produces:
the load completes (the bad event is merely skipped). -/
theorem c2_unknown_tag_amended_witness :
    ∃ z2, Zoo.load
        { schema_version := "1.0", animals := [],
          staff := [ZooStorage.serialize_staff sampleKeeper],
          events := [cexNoEventTypeRecord], last_updated := 0 }
      = Except.ok z2 :=
  (c2_unknown_tag_amended _).2.2.2
    (by intro r hr; simp at hr; subst hr; left; rfl)
    (by intro r hr; simp at hr)

/-- C2 counterexample: an event record with the unknown tag `"ShowEvent"`
but a valid `event_type` key deserializes **successfully** (no error is
raised, nothing is skipped): the claim that every unknown event type tag
raises an error is false.  Loading a file containing it yields a zoo with
that event scheduled. -/
theorem c2_unknown_tag_counterexample :
    exceptIsOk (ZooStorage.deserialize_event cexShowRecord (Zoo.init "Z")) = true
    ∧ (Zoo.load
          { schema_version := "1.0", animals := [], staff := [],
            events := [cexShowRecord], last_updated := 0 }).toOption.map
        (fun z => z.events.length)
      = some 1 :=
  ⟨rfl, rfl⟩
